import Mathlib

/-!
Shallow embedding of `src/pdf_compressor.py` (class `PDFCompressorApp`):
the Ghostscript locator (`find_ghostscript`), the job runner
(`run_compression`), the job-start validation
(`start_compression_thread`) and the two completion callbacks
(`on_compression_success`, `on_compression_error`), together with
theorems settling the specification claims about them.
-/

namespace PDFCompressor

/-- The candidate executable names, in priority order
(`gs_names = ['gswin64c.exe', 'gswin32c.exe', 'gs.exe']`, line 47). -/
def gs_names : List String := ["gswin64c.exe", "gswin32c.exe", "gs.exe"]

/-- The Ghostscript argument vector built by `run_compression`
(lines 191-201 of the source): the located executable, the fixed flags,
the preset flag for the chosen level, the output-file flag, and the
input file last. -/
def command (gsPath level outputFile inputFile : String) : List String :=
  [ gsPath
  , "-sDEVICE=pdfwrite"
  , "-dCompatibilityLevel=1.4"
  , "-dPDFSETTINGS=/" ++ level
  , "-dNOPAUSE"
  , "-dQUIET"
  , "-dBATCH"
  , "-sOutputFile=" ++ outputFile
  , inputFile ]

/-- The preset flag string for a compression level
(`f'-dPDFSETTINGS=/{level}'`, line 195). -/
def presetFlag (level : String) : String := "-dPDFSETTINGS=/" ++ level

theorem command_count_presetFlag (gsPath level outputFile inputFile : String)
    (hlevel : level = "screen" ∨ level = "ebook" ∨ level = "printer" ∨
      level = "prepress")
    (hg : gsPath ≠ presetFlag level)
    (ho : "-sOutputFile=" ++ outputFile ≠ presetFlag level)
    (hi : inputFile ≠ presetFlag level) :
    (command gsPath level outputFile inputFile).count (presetFlag level) = 1 := by
  rcases hlevel with h | h | h | h <;> subst h <;>
    simp [command, List.count_cons, presetFlag] at hg ho hi ⊢ <;>
    simp [hg, ho, hi]

/-! ### Helper Locator (`find_ghostscript`, lines 41-69)

The locator probes the host: on win32 it runs `where <name>` for each
candidate name (`subprocess.check_output(['where', name]).strip().decode()`)
inside a `try` whose `except` clause catches exactly
`subprocess.CalledProcessError` and `FileNotFoundError`; any other
exception raised by the probe (for example `PermissionError`, or a
`UnicodeDecodeError` from `.decode()`) propagates out of
`find_ghostscript`.  The fallback scans `os.walk` of the `gs`
subdirectory of the `ProgramFiles`-derived root.  The host environment is
abstracted as a structure of read-only probes. -/

/-- Python exception kinds relevant to the locator's probe expression. -/
inductive PyErr where
  | calledProcessError
  | fileNotFoundError
  | permissionError
  | unicodeDecodeError
  deriving DecidableEq, Repr

/-- The exception kinds caught by the `except (subprocess.CalledProcessError,
FileNotFoundError)` clause at line 57. -/
def caughtByLocator : PyErr → Bool
  | .calledProcessError => true
  | .fileNotFoundError => true
  | .permissionError => false
  | .unicodeDecodeError => false

/-- Read-only host environment consulted by `find_ghostscript`:
`sys.platform == 'win32'`, the result of the whole probe expression
`subprocess.check_output(['where', name]).strip().decode()` (value or
raised exception), `os.path.exists`, `os.environ.get('ProgramFiles')`,
`os.path.isdir`, `os.path.join`, and `os.walk` restricted to the
`(root, files)` components the code uses. -/
structure LocEnv where
  win32 : Bool
  whereProbe : String → Except PyErr String
  fileExists : String → Bool
  programFiles : Option String
  isDir : String → Bool
  joinPath : String → String → String
  walk : String → List (String × List String)

/-- The PATH-probing loop (lines 50-58): for each candidate name, on win32
run the `where` probe; return the result if it names an existing file;
swallow caught exceptions and move on; propagate uncaught ones.  On a
non-win32 platform the loop body is skipped entirely. -/
def pathLoop (env : LocEnv) : List String → Except PyErr (Option String)
  | [] => .ok none
  | n :: rest =>
    if env.win32 then
      match env.whereProbe n with
      | .ok p => if env.fileExists p then .ok (some p) else pathLoop env rest
      | .error e => if caughtByLocator e then pathLoop env rest else .error e
    else pathLoop env rest

/-- The inner `for name in gs_names: if name in files` loop of the
directory scan (lines 66-68). -/
def nameInFiles : List String → List String → Option String
  | [], _ => none
  | n :: rest, files => if n ∈ files then some n else nameInFiles rest files

/-- The `for root, _, files in os.walk(gs_dir)` loop (lines 65-68):
return `os.path.join(root, name)` for the first walked directory listing
one of the candidate names. -/
def walkLoop (env : LocEnv) : List (String × List String) → Option String
  | [] => none
  | (r, files) :: rest =>
    match nameInFiles gs_names files with
    | some n => some (env.joinPath r n)
    | none => walkLoop env rest

/-- `os.path.join(os.environ.get('ProgramFiles', 'C:\\Program Files'), 'gs')`
(lines 61-62). -/
def gsRootDir (env : LocEnv) : String :=
  env.joinPath (env.programFiles.getD "C:\\Program Files") "gs"

/-- The directory-scan fallback (lines 60-69): if the `gs` directory
exists, walk it looking for a candidate name; otherwise nothing. -/
def dirScan (env : LocEnv) : Option String :=
  if env.isDir (gsRootDir env) then walkLoop env (env.walk (gsRootDir env))
  else none

/-- `find_ghostscript` (lines 41-69): PATH probing first; on its
completion without a hit, the directory scan; `None` when both fail.
An uncaught probe exception propagates. -/
def find_ghostscript (env : LocEnv) : Except PyErr (Option String) :=
  match pathLoop env gs_names with
  | .error e => .error e
  | .ok (some p) => .ok (some p)
  | .ok none => .ok (dirScan env)

theorem pathLoop_of_not_win32 (env : LocEnv) (h : env.win32 = false) :
    ∀ names, pathLoop env names = .ok none := by
  intro names
  induction names with
  | nil => rfl
  | cons n rest ih => simpa [pathLoop, h] using ih

theorem pathLoop_some_exists (env : LocEnv) :
    ∀ names p, pathLoop env names = .ok (some p) → env.fileExists p = true := by
  intro names
  induction names with
  | nil => intro p hp; simp [pathLoop] at hp
  | cons n rest ih =>
    intro p hp
    by_cases hw : env.win32
    · rw [pathLoop, if_pos hw] at hp
      cases hprobe : env.whereProbe n with
      | ok q =>
        rw [hprobe] at hp
        dsimp only at hp
        by_cases hex : env.fileExists q
        · rw [if_pos hex] at hp
          cases hp
          exact hex
        · rw [if_neg hex] at hp
          exact ih p hp
      | error e =>
        rw [hprobe] at hp
        dsimp only at hp
        by_cases hc : caughtByLocator e
        · rw [if_pos hc] at hp
          exact ih p hp
        · rw [if_neg hc] at hp
          cases hp
    · rw [pathLoop, if_neg hw] at hp
      exact ih p hp

theorem nameInFiles_some :
    ∀ names files n, nameInFiles names files = some n →
      n ∈ names ∧ n ∈ files := by
  intro names
  induction names with
  | nil => intro files n hn; simp [nameInFiles] at hn
  | cons m rest ih =>
    intro files n hn
    rw [nameInFiles] at hn
    by_cases hm : m ∈ files
    · rw [if_pos hm] at hn
      cases hn
      exact ⟨List.mem_cons_self .., hm⟩
    · rw [if_neg hm] at hn
      obtain ⟨h1, h2⟩ := ih files n hn
      exact ⟨List.mem_cons_of_mem _ h1, h2⟩

theorem walkLoop_some (env : LocEnv) :
    ∀ l p, walkLoop env l = some p →
      ∃ r files n, (r, files) ∈ l ∧ n ∈ gs_names ∧ n ∈ files ∧
        p = env.joinPath r n := by
  intro l
  induction l with
  | nil => intro p hp; simp [walkLoop] at hp
  | cons pair rest ih =>
    intro p hp
    obtain ⟨r, files⟩ := pair
    rw [walkLoop] at hp
    cases hn : nameInFiles gs_names files with
    | some n =>
      rw [hn] at hp
      cases hp
      obtain ⟨h1, h2⟩ := nameInFiles_some gs_names files n hn
      exact ⟨r, files, n, List.mem_cons_self .., h1, h2, rfl⟩
    | none =>
      rw [hn] at hp
      obtain ⟨r2, files2, n, hmem, hn1, hn2, hj⟩ := ih p hp
      exact ⟨r2, files2, n, List.mem_cons_of_mem _ hmem, hn1, hn2, hj⟩

/-! ### Job Runner (`run_compression`, lines 181-220)

`subprocess.run(..., check=True)` raises `CalledProcessError` on a
nonzero exit code; the first `except` arm builds
`f"Ghostscript Error:\n{e.stderr.decode('utf-8', 'ignore')}"` and posts
it; any other launch exception is posted as `str(e)`.  Every branch
posts exactly one callback via `self.root.after(0, ...)`; the list of
posted outcomes is the function's result. -/

/-- Is `b` a UTF-8 continuation byte (`0x80..0xBF`)? -/
def contB (b : Nat) : Bool := decide (128 ≤ b) && decide (b ≤ 191)

/-- Valid first continuation byte after a three-byte lead `b`
(leads `0xE0` and `0xED` restrict the range, excluding overlong forms
and surrogates, as CPython's UTF-8 decoder does). -/
def cont1Three (b b1 : Nat) : Bool :=
  if b = 224 then decide (160 ≤ b1) && decide (b1 ≤ 191)
  else if b = 237 then contB b1 && decide (b1 ≤ 159)
  else contB b1

/-- Valid first continuation byte after a four-byte lead `b`
(leads `0xF0` and `0xF4` restrict the range, excluding overlong forms
and code points above `U+10FFFF`). -/
def cont1Four (b b1 : Nat) : Bool :=
  if b = 240 then decide (144 ≤ b1) && decide (b1 ≤ 191)
  else if b = 244 then contB b1 && decide (b1 ≤ 143)
  else contB b1

/-- `bytes.decode('utf-8', 'ignore')`: decode UTF-8, dropping
undecodable bytes instead of raising — a malformed or truncated
sequence contributes nothing and decoding resumes at the offending
byte.  Total by construction: the permissive decode never raises. -/
def utf8DecodeIgnore : List Nat → List Char
  | [] => []
  | b :: rest =>
    if b < 128 then Char.ofNat b :: utf8DecodeIgnore rest
    else if 194 ≤ b ∧ b ≤ 223 then
      match rest with
      | [] => []
      | b1 :: rest1 =>
        if contB b1 then
          Char.ofNat ((b - 192) * 64 + (b1 - 128)) :: utf8DecodeIgnore rest1
        else utf8DecodeIgnore (b1 :: rest1)
    else if 224 ≤ b ∧ b ≤ 239 then
      match rest with
      | [] => []
      | b1 :: rest1 =>
        if cont1Three b b1 then
          match rest1 with
          | [] => []
          | b2 :: rest2 =>
            if contB b2 then
              Char.ofNat ((b - 224) * 4096 + (b1 - 128) * 64 + (b2 - 128)) ::
                utf8DecodeIgnore rest2
            else utf8DecodeIgnore (b2 :: rest2)
        else utf8DecodeIgnore (b1 :: rest1)
    else if 240 ≤ b ∧ b ≤ 244 then
      match rest with
      | [] => []
      | b1 :: rest1 =>
        if cont1Four b b1 then
          match rest1 with
          | [] => []
          | b2 :: rest2 =>
            if contB b2 then
              match rest2 with
              | [] => []
              | b3 :: rest3 =>
                if contB b3 then
                  Char.ofNat ((b - 240) * 262144 + (b1 - 128) * 4096 +
                    (b2 - 128) * 64 + (b3 - 128)) :: utf8DecodeIgnore rest3
                else utf8DecodeIgnore (b3 :: rest3)
            else utf8DecodeIgnore (b2 :: rest2)
        else utf8DecodeIgnore (b1 :: rest1)
    else utf8DecodeIgnore rest
termination_by l => l.length
decreasing_by
  all_goals simp_wf
  all_goals omega

/-- The outcome of `subprocess.run(command, ...)`: a completed process
with an exit code and captured stream bytes, or an exception raised
before or at launch (`str(e)` of it). -/
inductive ProcResult where
  | exited (code : Nat) (stdoutBytes stderrBytes : List Nat)
  | launchError (msg : String)

/-- A callback posted to the controlling thread via
`self.root.after(0, ...)`: the success callback, or the error callback
with its message argument. -/
inductive Posted where
  | success
  | failure (msg : String)
  deriving DecidableEq, Repr

/-- `error_message = f"Ghostscript Error:\n{e.stderr.decode('utf-8', 'ignore')}"`
(line 217). -/
def error_message (stderrBytes : List Nat) : String :=
  "Ghostscript Error:\n" ++ String.mk (utf8DecodeIgnore stderrBytes)

/-- `run_compression` (lines 203-220), as the list of callbacks posted
back to the controlling thread: exit code zero posts the success
callback; a nonzero exit posts the error callback with the decorated
stderr text; a launch exception posts the error callback with `str(e)`.
No UI state is touched here — every branch only calls
`self.root.after`. -/
def run_compression (pr : ProcResult) : List Posted :=
  match pr with
  | .exited code _ stderrBytes =>
    if code = 0 then [.success] else [.failure (error_message stderrBytes)]
  | .launchError msg => [.failure msg]

/-- The ASCII byte string of `s` (for writing Python `bytes` literals
such as `b"error: invalid page tree"`). -/
def asciiBytes (s : String) : List Nat := s.data.map Char.toNat

theorem utf8DecodeIgnore_ascii :
    ∀ bs : List Nat, (∀ b ∈ bs, b < 128) →
      utf8DecodeIgnore bs = bs.map Char.ofNat := by
  intro bs
  induction bs with
  | nil => intro _; simp [utf8DecodeIgnore]
  | cons b rest ih =>
    intro h
    have hb : b < 128 := h b (List.mem_cons_self ..)
    have hrest := ih fun x hx => h x (List.mem_cons_of_mem _ hx)
    rw [utf8DecodeIgnore.eq_def]
    simp [hb, hrest]

/-! ### UI-side state, job start and completion callbacks -/

/-- The UI state the claims talk about: the trigger control's
enabled/disabled state, the status label's text, and whether the
progress bar is shown. -/
structure UIState where
  compressButtonEnabled : Bool
  statusText : String
  progressVisible : Bool
  deriving DecidableEq, Repr

/-- The state after `create_widgets` (lines 120-127): button enabled,
idle status text, progress bar hidden. -/
def initialUI : UIState :=
  { compressButtonEnabled := true
    statusText := "Ready. Select a file to begin."
    progressVisible := false }

/-- `start_compression_thread` (lines 141-179), returning the updated UI
state and whether a background thread was created.  The validation is:
reject when the input-path string is empty (`if not
self.input_pdf_path.get()`), reject when no Ghostscript path was found,
return when the save dialog is cancelled (empty result); otherwise
disable the button, show progress, and start the thread.  No filesystem
check of the input path is performed. -/
def start_compression_thread (ui : UIState) (inputPath : String)
    (gsPath : Option String) (saveDialog : String) : UIState × Bool :=
  if inputPath = "" then (ui, false)
  else
    match gsPath with
    | none => (ui, false)
    | some _ =>
      if saveDialog = "" then
        ({ ui with statusText := "Save cancelled. Ready." }, false)
      else
        ({ ui with
            compressButtonEnabled := false
            statusText := "Compressing... Please wait."
            progressVisible := true }, true)

/-- `on_compression_error` (lines 244-252): stop and hide the progress
bar, re-enable the button, set the status text to "An error occurred.",
and show the error dialog.  The function is total — no error kind
terminates the application. -/
def on_compression_error (s : UIState) : UIState :=
  { s with
      compressButtonEnabled := true
      statusText := "An error occurred."
      progressVisible := false }

/-- The numbers shown in the success dialog. -/
structure SuccessReport where
  original_size : ℚ
  compressed_size : ℚ
  reduction : ℚ
  deriving DecidableEq, Repr

/-- `os.path.getsize(...) / (1024 * 1024)` (lines 231-232): a byte count
converted to MiB (real arithmetic modelled exactly over `ℚ`). -/
def mib (bytes : Nat) : ℚ := (bytes : ℚ) / (1024 * 1024)

/-- The metric computation of `on_compression_success` (lines 231-233):
both sizes are re-read from the filesystem at outcome time and
`reduction = 100 - (compressed_size / original_size * 100)`.  The
division is unguarded; Python raises `ZeroDivisionError` when
`original_size` is `0.0`, modelled as `none` (the success dialog is
never reached). -/
def on_compression_success (origBytes compBytes : Nat) :
    Option SuccessReport :=
  let original_size := mib origBytes
  let compressed_size := mib compBytes
  if original_size = 0 then none
  else some
    { original_size := original_size
      compressed_size := compressed_size
      reduction := 100 - compressed_size / original_size * 100 }

/-! ### Concrete host environments used as test inputs -/

/-- A win32 host on which the `where` probe resolves the first candidate
name to an existing file and fails (nonzero exit) for the others; the
`gs` directory is absent. -/
def envA : LocEnv where
  win32 := true
  whereProbe := fun n =>
    if n = "gswin64c.exe" then .ok "C:\\gsbin\\gswin64c.exe"
    else .error .calledProcessError
  fileExists := fun p => p = "C:\\gsbin\\gswin64c.exe"
  programFiles := some "C:\\Program Files"
  isDir := fun _ => false
  joinPath := fun a b => a ++ "\\" ++ b
  walk := fun _ => []

/-- A non-win32 host whose `ProgramFiles`-derived `gs` directory exists
and contains `gs.exe` in a walked subdirectory. -/
def envB : LocEnv where
  win32 := false
  whereProbe := fun _ => .error .fileNotFoundError
  fileExists := fun _ => false
  programFiles := some "C:\\Program Files"
  isDir := fun d => d = "C:\\Program Files" ++ "\\" ++ "gs"
  joinPath := fun a b => a ++ "\\" ++ b
  walk := fun _ => [("C:\\Program Files\\gs\\gs10.0\\bin", ["gs.exe"])]

/-- A win32 host on which every `where` probe raises `PermissionError` —
an exception kind the locator's `except` clause does not catch. -/
def badLocEnv : LocEnv where
  win32 := true
  whereProbe := fun _ => .error .permissionError
  fileExists := fun _ => false
  programFiles := none
  isDir := fun _ => false
  joinPath := fun a b => a ++ "\\" ++ b
  walk := fun _ => []

/-! ### Claim theorems -/

/-- **C1.** For every preset in {screen, ebook, printer, prepress} the
argument vector built by `run_compression` contains exactly one preset
flag `-dPDFSETTINGS=/<preset>` matching the selected value, together
with the fixed flags `-sDEVICE=pdfwrite`, `-dCompatibilityLevel=1.4`,
`-dNOPAUSE`, `-dQUIET`, `-dBATCH`, the output-file flag, and the input
file as the last argument, regardless of the chosen preset (assuming
the executable path, output path and input path are not themselves the
preset flag). -/
theorem claim1_argument_vector (gsPath level outputFile inputFile : String)
    (hlevel : level = "screen" ∨ level = "ebook" ∨ level = "printer" ∨
      level = "prepress")
    (hg : gsPath ≠ presetFlag level)
    (ho : "-sOutputFile=" ++ outputFile ≠ presetFlag level)
    (hi : inputFile ≠ presetFlag level) :
    (command gsPath level outputFile inputFile).count (presetFlag level) = 1 ∧
    "-sDEVICE=pdfwrite" ∈ command gsPath level outputFile inputFile ∧
    "-dCompatibilityLevel=1.4" ∈ command gsPath level outputFile inputFile ∧
    "-dNOPAUSE" ∈ command gsPath level outputFile inputFile ∧
    "-dQUIET" ∈ command gsPath level outputFile inputFile ∧
    "-dBATCH" ∈ command gsPath level outputFile inputFile ∧
    ("-sOutputFile=" ++ outputFile) ∈ command gsPath level outputFile inputFile ∧
    (command gsPath level outputFile inputFile).getLast? = some inputFile := by
  refine ⟨command_count_presetFlag gsPath level outputFile inputFile hlevel hg ho hi,
    ?_, ?_, ?_, ?_, ?_, ?_, ?_⟩ <;> simp [command]

/-- Witness for C1 at the `screen` preset and concrete paths. -/
theorem claim1_argument_vector_witness :
    (command "C:\\gsbin\\gswin64c.exe" "screen" "out.pdf" "in.pdf").count
      (presetFlag "screen") = 1 ∧
    "-sDEVICE=pdfwrite" ∈ command "C:\\gsbin\\gswin64c.exe" "screen" "out.pdf" "in.pdf" ∧
    "-dCompatibilityLevel=1.4" ∈ command "C:\\gsbin\\gswin64c.exe" "screen" "out.pdf" "in.pdf" ∧
    "-dNOPAUSE" ∈ command "C:\\gsbin\\gswin64c.exe" "screen" "out.pdf" "in.pdf" ∧
    "-dQUIET" ∈ command "C:\\gsbin\\gswin64c.exe" "screen" "out.pdf" "in.pdf" ∧
    "-dBATCH" ∈ command "C:\\gsbin\\gswin64c.exe" "screen" "out.pdf" "in.pdf" ∧
    ("-sOutputFile=" ++ "out.pdf") ∈ command "C:\\gsbin\\gswin64c.exe" "screen" "out.pdf" "in.pdf" ∧
    (command "C:\\gsbin\\gswin64c.exe" "screen" "out.pdf" "in.pdf").getLast? =
      some "in.pdf" :=
  claim1_argument_vector "C:\\gsbin\\gswin64c.exe" "screen" "out.pdf" "in.pdf"
    (Or.inl rfl) (by decide) (by decide) (by decide)

theorem run_compression_nonzero (k : Nat) (sout bs : List Nat) :
    run_compression (.exited (k + 1) sout bs) = [.failure (error_message bs)] := by
  simp [run_compression]

theorem error_message_ascii (bs : List Nat) (h : ∀ b ∈ bs, b < 128) :
    error_message bs = "Ghostscript Error:\n" ++ String.mk (bs.map Char.ofNat) := by
  rw [error_message, utf8DecodeIgnore_ascii bs h]

/-- **C2, counterexample.** For a nonzero exit with stderr bytes
`b"error: invalid page tree"`, the posted outcome is
`Failure("Ghostscript Error:\nerror: invalid page tree")` — the stderr
text is prefixed, not shown verbatim — so it is not
`Failure("error: invalid page tree")` as the claim states. -/
theorem claim2_counterexample :
    run_compression (.exited 1 [] (asciiBytes "error: invalid page tree")) =
      [.failure "Ghostscript Error:\nerror: invalid page tree"] ∧
    run_compression (.exited 1 [] (asciiBytes "error: invalid page tree")) ≠
      [.failure "error: invalid page tree"] := by
  have h1 := run_compression_nonzero 0 [] (asciiBytes "error: invalid page tree")
  have h2 := error_message_ascii (asciiBytes "error: invalid page tree") (by decide)
  rw [h2] at h1
  norm_num at h1
  rw [h1]
  refine ⟨by decide, by decide⟩

/-- **C2, amended.** For every job whose external process exits with a
nonzero code, the posted outcome is a single `Failure` whose diagnostic
text is the string `"Ghostscript Error:\n"` followed by the captured
standard-error bytes decoded permissively — undecodable bytes dropped
(`'ignore'`), never raising a secondary error (the decode is a total
function); for ASCII stderr bytes `bs` the decoded part is exactly the
ASCII text of `bs`. -/
theorem claim2_failure_text (k : Nat) (sout bs : List Nat)
    (h : ∀ b ∈ bs, b < 128) :
    run_compression (.exited (k + 1) sout bs) =
      [.failure ("Ghostscript Error:\n" ++ String.mk (bs.map Char.ofNat))] := by
  rw [run_compression_nonzero k sout bs, error_message_ascii bs h]

/-- Witness for C2 (amended) at exit code 1 and the stderr bytes
`b"error: invalid page tree"`. -/
theorem claim2_failure_text_witness :
    run_compression (.exited 1 [] (asciiBytes "error: invalid page tree")) =
      [.failure ("Ghostscript Error:\n" ++
        String.mk ((asciiBytes "error: invalid page tree").map Char.ofNat))] :=
  claim2_failure_text 0 [] (asciiBytes "error: invalid page tree") (by decide)

/-- **C3, counterexample.** It is false that every job start whose input
path points to a nonexistent file is rejected with no background thread
created: `start_compression_thread` never consults the filesystem, and
with the (nonexistent) input path `"C:\missing.pdf"`, a located
Ghostscript and a chosen save path, a background thread is created. -/
theorem claim3_counterexample :
    ¬ (∀ (fileEx : String → Bool) (ui : UIState) (inputPath : String)
        (gsPath : Option String) (saveDialog : String),
        fileEx inputPath = false →
        (start_compression_thread ui inputPath gsPath saveDialog).2 = false) := by
  intro h
  have h2 := h (fun _ => false) initialUI "C:\\missing.pdf"
    (some "C:\\gsbin\\gswin64c.exe") "C:\\out.pdf" rfl
  simp [start_compression_thread] at h2

/-- **C3, amended.** A job start is rejected before any thread is
created exactly when the input-path string is empty (no file chosen),
no Ghostscript was located, or the save dialog was cancelled; the
existence of the input file on disk is not checked, so a non-empty path
to a nonexistent file is not rejected. -/
theorem claim3_validation (ui : UIState) (inputPath : String)
    (gsPath : Option String) (saveDialog : String) :
    (start_compression_thread ui inputPath gsPath saveDialog).2 = false ↔
      (inputPath = "" ∨ gsPath = none ∨ saveDialog = "") := by
  by_cases h1 : inputPath = ""
  · simp [start_compression_thread, h1]
  · cases gsPath with
    | none => simp [start_compression_thread, h1]
    | some g =>
      by_cases h2 : saveDialog = "" <;>
        simp [start_compression_thread, h1, h2]

/-- **C4.** On a host where the input-file listing reported by the walk
reflects files that exist on disk, and on which the locator completes
without an uncaught probe exception: the locator returns `None` exactly
when no candidate resolves via the PATH probe and the directory scan
finds no match; any returned path names a file that exists on disk; and
a successful PATH probe takes priority over the directory scan. -/
theorem claim4_locator_contract (env : LocEnv) (r : Option String)
    (hwalk : ∀ d rt files, (rt, files) ∈ env.walk d →
      ∀ n ∈ files, env.fileExists (env.joinPath rt n) = true)
    (hr : find_ghostscript env = .ok r) :
    (r = none ↔ pathLoop env gs_names = .ok none ∧ dirScan env = none) ∧
    (∀ p, r = some p → env.fileExists p = true) ∧
    (∀ p, pathLoop env gs_names = .ok (some p) → r = some p) := by
  rw [find_ghostscript] at hr
  cases hpl : pathLoop env gs_names with
  | error e => rw [hpl] at hr; cases hr
  | ok o =>
    cases o with
    | some p =>
      rw [hpl] at hr
      cases hr
      refine ⟨by simp, ?_, ?_⟩
      · intro q hq
        cases hq
        exact pathLoop_some_exists env gs_names _ hpl
      · intro q hq
        exact Except.ok.inj hq
    | none =>
      rw [hpl] at hr
      cases hr
      refine ⟨by simp, ?_, ?_⟩
      · intro p hp
        rw [dirScan] at hp
        by_cases hd : env.isDir (gsRootDir env)
        · rw [if_pos hd] at hp
          obtain ⟨rt, files, n, hmem, _, hnf, hj⟩ :=
            walkLoop_some env (env.walk (gsRootDir env)) p hp
          rw [hj]
          exact hwalk (gsRootDir env) rt files hmem n hnf
        · rw [if_neg hd] at hp
          cases hp
      · intro p hp
        simp at hp

/-- Witness for C4 on the concrete win32 host `envA`, where
`find_ghostscript` returns `.ok (some "C:\gsbin\gswin64c.exe")`. -/
theorem claim4_locator_contract_witness :
    ((some "C:\\gsbin\\gswin64c.exe" = (none : Option String)) ↔
      pathLoop envA gs_names = .ok none ∧ dirScan envA = none) ∧
    (∀ p, some "C:\\gsbin\\gswin64c.exe" = some p → envA.fileExists p = true) ∧
    (∀ p, pathLoop envA gs_names = .ok (some p) →
      some "C:\\gsbin\\gswin64c.exe" = some p) :=
  claim4_locator_contract envA (some "C:\\gsbin\\gswin64c.exe")
    (by intro d rt files hmem; simp [envA] at hmem) rfl

theorem pathLoop_all_caught (env : LocEnv)
    (h : ∀ n e, env.whereProbe n = .error e → caughtByLocator e = true) :
    ∀ names, ∃ r, pathLoop env names = .ok r := by
  intro names
  induction names with
  | nil => exact ⟨none, rfl⟩
  | cons n rest ih =>
    by_cases hw : env.win32
    · cases hprobe : env.whereProbe n with
      | ok p =>
        by_cases hex : env.fileExists p
        · exact ⟨some p, by rw [pathLoop, if_pos hw, hprobe]; simp [hex]⟩
        · obtain ⟨r, hr⟩ := ih
          exact ⟨r, by rw [pathLoop, if_pos hw, hprobe]; simp [hex, hr]⟩
      | error e =>
        obtain ⟨r, hr⟩ := ih
        exact ⟨r, by rw [pathLoop, if_pos hw, hprobe]; simp [h n e hprobe, hr]⟩
    · obtain ⟨r, hr⟩ := ih
      exact ⟨r, by rw [pathLoop, if_neg hw]; exact hr⟩

/-- **C5, counterexample.** It is false that the locator never raises
on every host environment: on `badLocEnv`, where the `where` probe
raises `PermissionError` — a kind not named in the
`except (CalledProcessError, FileNotFoundError)` clause — the
exception propagates out of `find_ghostscript` instead of being
swallowed. -/
theorem claim5_counterexample :
    ¬ (∀ env : LocEnv, ∃ r, find_ghostscript env = .ok r) := by
  intro h
  obtain ⟨r, hr⟩ := h badLocEnv
  have he : find_ghostscript badLocEnv = .error .permissionError := rfl
  rw [he] at hr
  cases hr

/-- **C5, amended.** Probing errors of the caught kinds — the lookup
command exiting nonzero (`CalledProcessError`) or being missing
(`FileNotFoundError`) — are swallowed and treated as "this candidate
not found", never aborting the overall search; on a host where every
probe error is of a caught kind the locator raises nothing and returns
absence as a normal value.  (Errors of other kinds, such as permission
denied, propagate.) -/
theorem claim5_swallowed_errors (env : LocEnv)
    (h : ∀ n e, env.whereProbe n = .error e → caughtByLocator e = true) :
    (∃ r, find_ghostscript env = .ok r) ∧
    (∀ n rest e, env.whereProbe n = .error e →
      pathLoop env (n :: rest) = pathLoop env rest) := by
  constructor
  · obtain ⟨r, hr⟩ := pathLoop_all_caught env h gs_names
    cases r with
    | none => exact ⟨dirScan env, by rw [find_ghostscript, hr]⟩
    | some p => exact ⟨some p, by rw [find_ghostscript, hr]⟩
  · intro n rest e he
    by_cases hw : env.win32
    · rw [pathLoop, if_pos hw, he]
      simp [h n e he]
    · rw [pathLoop, if_neg hw]

/-- Witness for C5 (amended) on the concrete host `envA`, whose only
probe error kind is `CalledProcessError`. -/
theorem claim5_swallowed_errors_witness :
    (∃ r, find_ghostscript envA = .ok r) ∧
    (∀ n rest e, envA.whereProbe n = .error e →
      pathLoop envA (n :: rest) = pathLoop envA rest) := by
  refine claim5_swallowed_errors envA ?_
  intro n e he
  by_cases hn : n = "gswin64c.exe"
  · simp [envA, hn] at he
  · simp [envA, hn] at he
    rw [← he]
    rfl

/-- **C6.** For every executed job, exactly one terminal outcome —
never zero, never more than one — is posted back to the controlling
thread via `root.after`, on every path through `run_compression` (zero
exit, nonzero exit, launch failure); the function touches no UI state
itself, its whole effect being that single posted callback. -/
theorem claim6_exactly_one_outcome (pr : ProcResult) :
    ∃ o, run_compression pr = [o] := by
  cases pr with
  | exited code sout serr =>
    by_cases hc : code = 0
    · exact ⟨.success, by simp [run_compression, hc]⟩
    · exact ⟨.failure (error_message serr), by simp [run_compression, hc]⟩
  | launchError msg => exact ⟨.failure msg, rfl⟩

/-- **C7.** On a zero exit code the success handler reads both files'
sizes from the filesystem; for an original of 10 MiB and a compressed
result of 4 MiB it reports sizes 10.0 and 4.0 (MiB) and the reduction
derived from them, `100 - 4/10*100 = 60.0` percent. -/
theorem claim7_success_metrics :
    on_compression_success (10 * 1024 * 1024) (4 * 1024 * 1024) =
      some { original_size := 10, compressed_size := 4, reduction := 60 } := by
  rw [on_compression_success]
  norm_num [mib]

/-- **C8, counterexample.** It is false that the error path restores
the idle status text: starting from the idle state, `on_compression_error`
sets the status label to `"An error occurred."`, which is neither the
initial idle text `"Ready. Select a file to begin."` nor the `"Ready."`
text the success path restores (even though it does re-enable the
trigger control). -/
theorem claim8_counterexample :
    (on_compression_error initialUI).compressButtonEnabled = true ∧
    (on_compression_error initialUI).statusText = "An error occurred." ∧
    (on_compression_error initialUI).statusText ≠ initialUI.statusText ∧
    (on_compression_error initialUI).statusText ≠ "Ready." := by
  refine ⟨rfl, rfl, by decide, by decide⟩

/-- **C8, amended.** For every error outcome, the error handler
re-enables the trigger control, hides the progress indicator, and sets
the status text to `"An error occurred."` (not the idle `"Ready."`
text); the resulting state permits the user to retry — a subsequent job
start with a non-empty input, a located Ghostscript and a chosen save
path creates a background thread — and no error kind terminates the
application (`on_compression_error` is total). -/
theorem claim8_error_path_recovers (s : UIState) (inputPath gsPath saveDialog : String)
    (h1 : inputPath ≠ "") (h2 : saveDialog ≠ "") :
    (on_compression_error s).compressButtonEnabled = true ∧
    (on_compression_error s).progressVisible = false ∧
    (on_compression_error s).statusText = "An error occurred." ∧
    (start_compression_thread (on_compression_error s) inputPath (some gsPath)
      saveDialog).2 = true := by
  refine ⟨rfl, rfl, rfl, ?_⟩
  simp [start_compression_thread, h1, h2]

/-- Witness for C8 (amended) at the idle state and concrete paths. -/
theorem claim8_error_path_recovers_witness :
    (on_compression_error initialUI).compressButtonEnabled = true ∧
    (on_compression_error initialUI).progressVisible = false ∧
    (on_compression_error initialUI).statusText = "An error occurred." ∧
    (start_compression_thread (on_compression_error initialUI) "in.pdf"
      (some "C:\\gsbin\\gswin64c.exe") "out.pdf").2 = true :=
  claim8_error_path_recovers initialUI "in.pdf" "C:\\gsbin\\gswin64c.exe"
    "out.pdf" (by decide) (by decide)

/-- **C9.** If the external process exits zero but the input file's
size on disk is 0 bytes at outcome time, the success handler's
`compressed_size / original_size` is an unguarded division by zero
(`ZeroDivisionError`), so no success report can be produced for a
zero-byte original file, whatever the compressed size. -/
theorem claim9_zero_byte_original (compBytes : Nat) :
    on_compression_success 0 compBytes = none := by
  simp [on_compression_success, mib]

theorem walkLoop_whereProbe_irrel (env : LocEnv)
    (f : String → Except PyErr String) :
    ∀ l, walkLoop { env with whereProbe := f } l = walkLoop env l := by
  intro l
  induction l with
  | nil => rfl
  | cons pair rest ih =>
    obtain ⟨r, files⟩ := pair
    rw [walkLoop, walkLoop, ih]

/-- **C10.** On every platform other than win32 the locator performs no
PATH-style lookup at all — its result is independent of the `where`
probe — and equals the directory scan's result: it can return a path
only as `os.path.join(root, name)` for a candidate name
(`gswin64c.exe`, `gswin32c.exe` or `gs.exe`) listed by the walk of the
`gs` subdirectory of the `ProgramFiles`-derived root, and returns
`None` otherwise. -/
theorem claim10_non_win32 (env : LocEnv) (h : env.win32 = false) :
    find_ghostscript env = .ok (dirScan env) ∧
    (∀ f, find_ghostscript { env with whereProbe := f } =
      find_ghostscript env) ∧
    (∀ p, dirScan env = some p → ∃ rt files n,
      (rt, files) ∈ env.walk (gsRootDir env) ∧ n ∈ gs_names ∧ n ∈ files ∧
      p = env.joinPath rt n) := by
  refine ⟨?_, ?_, ?_⟩
  · rw [find_ghostscript, pathLoop_of_not_win32 env h]
  · intro f
    rw [find_ghostscript, find_ghostscript,
      pathLoop_of_not_win32 env h,
      pathLoop_of_not_win32 { env with whereProbe := f } h]
    simp [dirScan, gsRootDir, walkLoop_whereProbe_irrel]
  · intro p hp
    rw [dirScan] at hp
    by_cases hd : env.isDir (gsRootDir env)
    · rw [if_pos hd] at hp
      exact walkLoop_some env (env.walk (gsRootDir env)) p hp
    · rw [if_neg hd] at hp
      cases hp

/-- Witness for C10 on the concrete non-win32 host `envB`, where the
scan finds `gs.exe` under the walked `gs` directory. -/
theorem claim10_non_win32_witness :
    find_ghostscript envB = .ok (dirScan envB) ∧
    (∀ f, find_ghostscript { envB with whereProbe := f } =
      find_ghostscript envB) ∧
    (∀ p, dirScan envB = some p → ∃ rt files n,
      (rt, files) ∈ envB.walk (gsRootDir envB) ∧ n ∈ gs_names ∧ n ∈ files ∧
      p = envB.joinPath rt n) :=
  claim10_non_win32 envB rfl

end PDFCompressor
